import Mathlib

/-!
Verification of the request-schema layer of the chroma fork
(src/chromadb/server/fastapi/types.py), a module of pydantic v1 models that
parse untyped inbound JSON payloads into typed request objects.

The embedding models inbound payloads as JSON values, and each pydantic model
as a record type together with a parse function over a JSON object (a list of
key/value pairs).  Field parsing follows pydantic v1 semantics for the types
used in the source:

  - a field annotated `Optional[X] = Field(None, ...)` is absent-tolerant:
    a missing key or an explicit null parses to `none`;
  - a field with default `None` (such as `AddEmbedding.ids`, declared
    `List[str] = Field(None, ...)`) is treated by pydantic v1 exactly like an
    optional field: not required, and null is allowed;
  - a field declared with `Field(...)` is required: a missing key is a
    validation error;
  - a field with a non-null default (such as `n_results: int = Field(10)`)
    parses to the default when the key is missing, and validates the supplied
    value otherwise;
  - `Any` accepts every JSON value unchanged; `List[X]` requires a JSON array
    and validates each element; `Dict[Any, Any]` requires a JSON object and
    passes it through; `str` accepts strings and coerces numbers and booleans
    to their string rendering; `int` accepts integers, booleans, truncated
    floats and numeric strings; `bool` accepts booleans, 0/1 and the usual
    string spellings.

Pydantic collects every field error while this model short-circuits at the
first one; the two agree on whether a payload is accepted and on the parsed
value when it is, which is all the properties below depend on.

JSON floating-point literals are modelled as rational numbers: no arithmetic
is ever performed on them here, they are only carried through, so only the
distinction between the integer and the floating-point representation of a
vector element matters.
-/

/-- A JSON value, the shape of every inbound payload field. -/
inductive JsonValue : Type where
  | null : JsonValue
  | bool : Bool → JsonValue
  | int : Int → JsonValue
  | float : ℚ → JsonValue
  | str : String → JsonValue
  | arr : List JsonValue → JsonValue
  | obj : List (String × JsonValue) → JsonValue

/-- Key lookup in a JSON object.  Payload objects are Python dicts, so keys
are unique; first match suffices. -/
def lookupField : List (String × JsonValue) → String → Option JsonValue
  | [], _ => none
  | (k', v) :: rest, k => if k' = k then some v else lookupField rest k

/-- Pydantic `Any`: every value is accepted unchanged. -/
def parseAny (v : JsonValue) : Except String JsonValue :=
  .ok v

/-- Pydantic v1 `str`: strings pass through; numbers and booleans are coerced
to their string rendering; everything else is rejected. -/
def parseStr : JsonValue → Except String String
  | .str s => .ok s
  | .int n => .ok (toString n)
  | .float q => .ok (toString q)
  | .bool b => .ok (if b then "True" else "False")
  | _ => .error "str type expected"

/-- Pydantic v1 `int`: integers pass through; booleans map to 0/1; floats are
truncated toward zero; numeric strings are parsed; everything else is
rejected. -/
def parseInt : JsonValue → Except String Int
  | .int n => .ok n
  | .bool b => .ok (if b then 1 else 0)
  | .float q => .ok (Int.tdiv q.num (q.den : Int))
  | .str s =>
    match s.trim.toInt? with
    | some n => .ok n
    | none => .error "value is not a valid integer"
  | _ => .error "value is not a valid integer"

/-- Pydantic v1 `bool`: booleans pass through; 0/1 and the usual string
spellings are coerced; everything else is rejected. -/
def parseBool : JsonValue → Except String Bool
  | .bool b => .ok b
  | .int n =>
    if n = 0 then .ok false
    else if n = 1 then .ok true
    else .error "value could not be parsed to a boolean"
  | .float q =>
    if q = 0 then .ok false
    else if q = 1 then .ok true
    else .error "value could not be parsed to a boolean"
  | .str s =>
    if ["on", "t", "true", "y", "yes", "1"].contains s.toLower then .ok true
    else if ["off", "f", "false", "n", "no", "0"].contains s.toLower then .ok false
    else .error "value could not be parsed to a boolean"
  | _ => .error "value could not be parsed to a boolean"

/-- Pydantic `Dict[Any, Any]`: a JSON object passes through unchanged, as the
source performs no recursive validation of `where` / `where_document`. -/
def parseDict : JsonValue → Except String (List (String × JsonValue))
  | .obj kvs => .ok kvs
  | _ => .error "value is not a valid dict"

/-- Element-wise validation of a JSON array, as pydantic does for `List[X]`. -/
def parseElems (f : JsonValue → Except String α) : List JsonValue → Except String (List α)
  | [] => .ok []
  | v :: vs => do
    let a ← f v
    let rest ← parseElems f vs
    .ok (a :: rest)

/-- Pydantic `List[X]`: requires a JSON array and validates each element. -/
def parseListWith (f : JsonValue → Except String α) : JsonValue → Except String (List α)
  | .arr xs => parseElems f xs
  | _ => .error "value is not a valid list"

/-- Pydantic `Optional[X]` in element position: null parses to `none`. -/
def parseNullable (f : JsonValue → Except String α) : JsonValue → Except String (Option α)
  | .null => .ok none
  | v => (f v).map some

/-- A field that pydantic v1 treats as optional (annotation `Optional[X]`, or
default `None`): a missing key or a null value parses to `none`. -/
def parseOptField (v : Option JsonValue) (f : JsonValue → Except String α) :
    Except String (Option α) :=
  match v with
  | none => .ok none
  | some .null => .ok none
  | some w => (f w).map some

/-- A required field, declared `Field(...)`: a missing key is a validation
error. -/
def parseReqField (v : Option JsonValue) (fieldName : String)
    (f : JsonValue → Except String α) : Except String α :=
  match v with
  | none => .error ("field required: " ++ fieldName)
  | some w => f w

/-- A field with a non-null default: the default is used when the key is
missing, and the supplied value is validated otherwise (null is not allowed,
matching pydantic v1 for a non-Optional annotation). -/
def parseDefField (v : Option JsonValue) (f : JsonValue → Except String α)
    (dflt : α) : Except String α :=
  match v with
  | none => .ok dflt
  | some w => f w

/-- Modelled from the spec: the `Include` selector type is imported from
`chromadb.api.types`, which is not under src/.  The spec describes it as an
enumerated set drawn from embeddings, metadatas, documents, distances. -/
inductive IncludeItem : Type where
  | embeddings : IncludeItem
  | metadatas : IncludeItem
  | documents : IncludeItem
  | distances : IncludeItem
deriving DecidableEq

/-- Modelled from the spec: validation of one member of the `Include`
enumerated set; any other value is rejected. -/
def parseIncludeItem : JsonValue → Except String IncludeItem
  | .str "embeddings" => .ok .embeddings
  | .str "metadatas" => .ok .metadatas
  | .str "documents" => .ok .documents
  | .str "distances" => .ok .distances
  | _ => .error "value is not a valid enumeration member"

/-- The typed result of parsing an `AddEmbedding` payload.  `ids` is declared
`List[str] = Field(None, ...)` in the source, which pydantic v1 treats as
optional with default `None`, hence `Option` here. -/
structure AddEmbedding : Type where
  embeddings : Option (List JsonValue)
  metadatas : Option (List (Option (List (String × JsonValue))))
  documents : Option (List (Option String))
  ids : Option (List String)

/-- Parsing of an `AddEmbedding` payload, fields in declaration order. -/
def parseAddEmbedding (p : List (String × JsonValue)) : Except String AddEmbedding := do
  let embeddings ← parseOptField (lookupField p "embeddings") (parseListWith parseAny)
  let metadatas ← parseOptField (lookupField p "metadatas")
    (parseListWith (parseNullable parseDict))
  let documents ← parseOptField (lookupField p "documents")
    (parseListWith (parseNullable parseStr))
  let ids ← parseOptField (lookupField p "ids") (parseListWith parseStr)
  return { embeddings := embeddings, metadatas := metadatas,
           documents := documents, ids := ids }

/-- The typed result of parsing an `UpdateEmbedding` payload.  `ids` is
declared `Field(...)`, hence required. -/
structure UpdateEmbedding : Type where
  embeddings : Option (List JsonValue)
  metadatas : Option (List (Option (List (String × JsonValue))))
  documents : Option (List (Option String))
  ids : List String

/-- Parsing of an `UpdateEmbedding` payload, fields in declaration order. -/
def parseUpdateEmbedding (p : List (String × JsonValue)) :
    Except String UpdateEmbedding := do
  let embeddings ← parseOptField (lookupField p "embeddings") (parseListWith parseAny)
  let metadatas ← parseOptField (lookupField p "metadatas")
    (parseListWith (parseNullable parseDict))
  let documents ← parseOptField (lookupField p "documents")
    (parseListWith (parseNullable parseStr))
  let ids ← parseReqField (lookupField p "ids") "ids" (parseListWith parseStr)
  return { embeddings := embeddings, metadatas := metadatas,
           documents := documents, ids := ids }

/-- The typed result of parsing a `QueryEmbedding` payload.  `where` is a Lean
keyword, so the field is named `where_`. -/
structure QueryEmbedding : Type where
  where_ : Option (List (String × JsonValue))
  where_document : Option (List (String × JsonValue))
  query_embeddings : List JsonValue
  n_results : Int
  include_ : List IncludeItem

/-- Parsing of a `QueryEmbedding` payload, fields in declaration order:
`query_embeddings` is required, `n_results` defaults to 10, `include` defaults
to metadatas, documents, distances. -/
def parseQueryEmbedding (p : List (String × JsonValue)) :
    Except String QueryEmbedding := do
  let w ← parseOptField (lookupField p "where") parseDict
  let wd ← parseOptField (lookupField p "where_document") parseDict
  let qe ← parseReqField (lookupField p "query_embeddings") "query_embeddings"
    (parseListWith parseAny)
  let n ← parseDefField (lookupField p "n_results") parseInt 10
  let inc ← parseDefField (lookupField p "include") (parseListWith parseIncludeItem)
    [.metadatas, .documents, .distances]
  return { where_ := w, where_document := wd, query_embeddings := qe,
           n_results := n, include_ := inc }

/-- The typed result of parsing a `GetEmbedding` payload. -/
structure GetEmbedding : Type where
  ids : Option (List String)
  where_ : Option (List (String × JsonValue))
  where_document : Option (List (String × JsonValue))
  sort : Option String
  limit : Option Int
  offset : Option Int
  include_ : List IncludeItem

/-- Parsing of a `GetEmbedding` payload, fields in declaration order; every
field but `include` is optional, and `limit` / `offset` are plain optional
integers with no sign constraint in the source. -/
def parseGetEmbedding (p : List (String × JsonValue)) :
    Except String GetEmbedding := do
  let ids ← parseOptField (lookupField p "ids") (parseListWith parseStr)
  let w ← parseOptField (lookupField p "where") parseDict
  let wd ← parseOptField (lookupField p "where_document") parseDict
  let sort ← parseOptField (lookupField p "sort") parseStr
  let limit ← parseOptField (lookupField p "limit") parseInt
  let offset ← parseOptField (lookupField p "offset") parseInt
  let inc ← parseDefField (lookupField p "include") (parseListWith parseIncludeItem)
    [.metadatas, .documents, .distances]
  return { ids := ids, where_ := w, where_document := wd, sort := sort,
           limit := limit, offset := offset, include_ := inc }

/-- The typed result of parsing a `DeleteEmbedding` payload: three optional
fields, nothing required. -/
structure DeleteEmbedding : Type where
  ids : Option (List String)
  where_ : Option (List (String × JsonValue))
  where_document : Option (List (String × JsonValue))

/-- Parsing of a `DeleteEmbedding` payload, fields in declaration order. -/
def parseDeleteEmbedding (p : List (String × JsonValue)) :
    Except String DeleteEmbedding := do
  let ids ← parseOptField (lookupField p "ids") (parseListWith parseStr)
  let w ← parseOptField (lookupField p "where") parseDict
  let wd ← parseOptField (lookupField p "where_document") parseDict
  return { ids := ids, where_ := w, where_document := wd }

/-- The typed result of parsing a `CreateCollection` payload.  `metadata` is
`CollectionMetadata`, imported from `chromadb.api.types` which is not under
src/; modelled from the spec as an optional mapping passed through. -/
structure CreateCollection : Type where
  name : String
  metadata : Option (List (String × JsonValue))
  get_or_create : Bool

/-- Parsing of a `CreateCollection` payload: `name` is required with no
further constraint, `metadata` is optional, `get_or_create` defaults to
false. -/
def parseCreateCollection (p : List (String × JsonValue)) :
    Except String CreateCollection := do
  let name ← parseReqField (lookupField p "name") "name" parseStr
  let metadata ← parseOptField (lookupField p "metadata") parseDict
  let goc ← parseDefField (lookupField p "get_or_create") parseBool false
  return { name := name, metadata := metadata, get_or_create := goc }

/-- The typed result of parsing an `UpdateCollection` payload: both fields
optional. -/
structure UpdateCollection : Type where
  new_name : Option String
  new_metadata : Option (List (String × JsonValue))

/-- Parsing of an `UpdateCollection` payload, fields in declaration order. -/
def parseUpdateCollection (p : List (String × JsonValue)) :
    Except String UpdateCollection := do
  let nn ← parseOptField (lookupField p "new_name") parseStr
  let nm ← parseOptField (lookupField p "new_metadata") parseDict
  return { new_name := nn, new_metadata := nm }

/-! Helper lemmas shared by the claim theorems. -/

/-- Deconstruction of a successful `Except` bind. -/
theorem exists_ok_of_bind_ok {α β : Type} {x : Except String α}
    {f : α → Except String β} {b : β} (h : (x >>= f) = .ok b) :
    ∃ a, x = .ok a ∧ f a = .ok b := by
  cases x with
  | error e => exact absurd h (by simp [Bind.bind, Except.bind])
  | ok a => exact ⟨a, rfl, h⟩

/-- An `Except` bind fails whenever its continuation fails on every success. -/
theorem bind_isError {α β : Type} {x : Except String α} {f : α → Except String β}
    (h : ∀ a, x = .ok a → ∃ e, (f a) = .error e) : ∃ e, (x >>= f) = .error e := by
  cases x with
  | error e => exact ⟨e, rfl⟩
  | ok a => exact h a rfl

/-- Element-wise validation under `Any` accepts every list unchanged. -/
theorem parseElems_parseAny (xs : List JsonValue) :
    parseElems parseAny xs = .ok xs := by
  induction xs with
  | nil => rfl
  | cons x xs ih => simp [parseElems, parseAny, ih, Bind.bind, Except.bind]

/-- Element-wise `str` validation accepts a list of JSON strings verbatim. -/
theorem parseElems_parseStr_map (ids : List String) :
    parseElems parseStr (ids.map JsonValue.str) = .ok ids := by
  induction ids with
  | nil => rfl
  | cons x xs ih => simp [parseElems, parseStr, ih, Bind.bind, Except.bind, List.map]

/-! Claim theorems. -/

/-- Claim C1, counterexample: an `AddEmbedding` payload with two ids and a
single embedding vector parses successfully, so a parallel-array length
mismatch is not rejected by validation, contrary to the claim. -/
theorem C1_counterexample :
    parseAddEmbedding [("ids", .arr [.str "a", .str "b"]),
                       ("embeddings", .arr [.arr [.float (1/10)]])] =
      .ok ⟨some [.arr [.float (1/10)]], none, none, some ["a", "b"]⟩ := rfl

/-- Claim C1, amended: the schema layer applies no cross-field length check
at all: for both Add and Update, a supplied embeddings array of any length
parses successfully together with ids of any length; any length enforcement
happens downstream of this layer. -/
theorem C1_no_cross_field_length_check (ids : List String) (embs : List JsonValue) :
    parseAddEmbedding [("ids", .arr (ids.map .str)), ("embeddings", .arr embs)] =
      .ok ⟨some embs, none, none, some ids⟩ ∧
    parseUpdateEmbedding [("ids", .arr (ids.map .str)), ("embeddings", .arr embs)] =
      .ok ⟨some embs, none, none, ids⟩ := by
  constructor
  · simp [parseAddEmbedding, lookupField, parseOptField, parseListWith,
      parseElems_parseAny, parseElems_parseStr_map, Bind.bind, Except.bind, Except.map]
    rfl
  · simp [parseUpdateEmbedding, lookupField, parseOptField, parseReqField,
      parseListWith, parseElems_parseAny, parseElems_parseStr_map,
      Bind.bind, Except.bind, Except.map]
    rfl

/-- Claim C2, counterexample: an `UpdateEmbedding` payload whose ids field is
the empty list parses successfully, contrary to the claim that an empty ids
list fails validation for both Add and Update. -/
theorem C2_counterexample :
    parseUpdateEmbedding [("ids", .arr [])] = .ok ⟨none, none, none, []⟩ := rfl

/-- Claim C2, amended: `ids` is required only for Update, where omitting it
fails validation; for Add the field has default None so a payload omitting
ids parses successfully with ids absent, and an empty ids list is accepted
for Add as well. -/
theorem C2_ids_requiredness :
    (∀ p, lookupField p "ids" = none → ∃ e, parseUpdateEmbedding p = .error e) ∧
    parseAddEmbedding [] = .ok ⟨none, none, none, none⟩ ∧
    parseAddEmbedding [("ids", .arr [])] = .ok ⟨none, none, none, some []⟩ := by
  refine ⟨?_, rfl, rfl⟩
  intro p h
  simp only [parseUpdateEmbedding, h, parseReqField]
  apply bind_isError; intro a _
  apply bind_isError; intro b _
  apply bind_isError; intro c _
  exact ⟨"field required: " ++ "ids", rfl⟩

/-- Claim C2, witness: the empty Update payload omits ids and indeed fails
validation. -/
theorem C2_witness : ∃ e, parseUpdateEmbedding [] = .error e :=
  C2_ids_requiredness.1 [] rfl

/-- Claim C3: a Get payload and a Query payload that do not specify `include`
parse, whenever they parse at all, to requests whose include list is exactly
metadatas, documents, distances, and in particular never contains
embeddings. -/
theorem C3_include_default (pg pq : List (String × JsonValue))
    (rg : GetEmbedding) (rq : QueryEmbedding)
    (hg : lookupField pg "include" = none) (hq : lookupField pq "include" = none)
    (hgr : parseGetEmbedding pg = .ok rg) (hqr : parseQueryEmbedding pq = .ok rq) :
    (rg.include_ = [.metadatas, .documents, .distances] ∧
      IncludeItem.embeddings ∉ rg.include_) ∧
    (rq.include_ = [.metadatas, .documents, .distances] ∧
      IncludeItem.embeddings ∉ rq.include_) := by
  constructor
  · simp only [parseGetEmbedding] at hgr
    obtain ⟨ids, _, hgr⟩ := exists_ok_of_bind_ok hgr
    obtain ⟨w, _, hgr⟩ := exists_ok_of_bind_ok hgr
    obtain ⟨wd, _, hgr⟩ := exists_ok_of_bind_ok hgr
    obtain ⟨srt, _, hgr⟩ := exists_ok_of_bind_ok hgr
    obtain ⟨lim, _, hgr⟩ := exists_ok_of_bind_ok hgr
    obtain ⟨off, _, hgr⟩ := exists_ok_of_bind_ok hgr
    obtain ⟨inc, hinc, hgr⟩ := exists_ok_of_bind_ok hgr
    rw [hg] at hinc
    simp only [parseDefField] at hinc
    simp only [pure, Except.pure, Except.ok.injEq] at hgr
    cases hinc
    cases hgr
    refine ⟨rfl, ?_⟩
    show IncludeItem.embeddings ∉
      [IncludeItem.metadatas, IncludeItem.documents, IncludeItem.distances]
    decide
  · simp only [parseQueryEmbedding] at hqr
    obtain ⟨w, _, hqr⟩ := exists_ok_of_bind_ok hqr
    obtain ⟨wd, _, hqr⟩ := exists_ok_of_bind_ok hqr
    obtain ⟨qe, _, hqr⟩ := exists_ok_of_bind_ok hqr
    obtain ⟨n, _, hqr⟩ := exists_ok_of_bind_ok hqr
    obtain ⟨inc, hinc, hqr⟩ := exists_ok_of_bind_ok hqr
    rw [hq] at hinc
    simp only [parseDefField] at hinc
    simp only [pure, Except.pure, Except.ok.injEq] at hqr
    cases hinc
    cases hqr
    refine ⟨rfl, ?_⟩
    show IncludeItem.embeddings ∉
      [IncludeItem.metadatas, IncludeItem.documents, IncludeItem.distances]
    decide

/-- Claim C3, witness: the empty Get payload and a minimal Query payload,
both without `include`, parse to requests carrying exactly the default
include list. -/
theorem C3_witness :
    ((⟨none, none, none, none, none, none,
        [.metadatas, .documents, .distances]⟩ : GetEmbedding).include_ =
          [.metadatas, .documents, .distances] ∧
      IncludeItem.embeddings ∉
        (⟨none, none, none, none, none, none,
          [.metadatas, .documents, .distances]⟩ : GetEmbedding).include_) ∧
    ((⟨none, none, [], 10, [.metadatas, .documents, .distances]⟩ :
        QueryEmbedding).include_ = [.metadatas, .documents, .distances] ∧
      IncludeItem.embeddings ∉
        (⟨none, none, [], 10, [.metadatas, .documents, .distances]⟩ :
          QueryEmbedding).include_) :=
  C3_include_default [] [("query_embeddings", JsonValue.arr [])]
    ⟨none, none, none, none, none, none, [.metadatas, .documents, .distances]⟩
    ⟨none, none, [], 10, [.metadatas, .documents, .distances]⟩ rfl rfl rfl rfl

/-- Claim C4: a Query payload without `n_results` parses to exactly the same
result as the same payload with `n_results` explicitly set to 10. -/
theorem C4_n_results_default (p : List (String × JsonValue))
    (h : lookupField p "n_results" = none) :
    parseQueryEmbedding p = parseQueryEmbedding (("n_results", .int 10) :: p) := by
  simp [parseQueryEmbedding, lookupField, h, parseDefField, parseInt]

/-- Claim C4, witness: a concrete minimal Query payload without
`n_results`. -/
theorem C4_witness :
    lookupField [("query_embeddings", JsonValue.arr [])] "n_results" = none ∧
    parseQueryEmbedding [("query_embeddings", JsonValue.arr [])] =
      parseQueryEmbedding (("n_results", JsonValue.int 10) ::
        [("query_embeddings", JsonValue.arr [])]) :=
  ⟨rfl, C4_n_results_default [("query_embeddings", JsonValue.arr [])] rfl⟩

/-- Claim C5, counterexample: a `CreateCollection` payload whose name is the
empty string parses successfully, contrary to the claim that an empty name
fails validation. -/
theorem C5_counterexample :
    parseCreateCollection [("name", JsonValue.str "")] = .ok ⟨"", none, false⟩ := rfl

/-- Claim C5, amended: `name` is required, so a payload omitting it fails
validation; but every string value, the empty string included, is accepted
at this layer (non-emptiness and uniqueness are enforced downstream). -/
theorem C5_name_required :
    (∀ p, lookupField p "name" = none →
      parseCreateCollection p = .error ("field required: " ++ "name")) ∧
    (∀ s, parseCreateCollection [("name", JsonValue.str s)] = .ok ⟨s, none, false⟩) := by
  constructor
  · intro p h
    simp only [parseCreateCollection, h, parseReqField]
    rfl
  · intro s
    simp [parseCreateCollection, lookupField, parseReqField, parseOptField,
      parseDefField, parseStr, Bind.bind, Except.bind]
    rfl

/-- Claim C5, witness: the empty payload omits name and fails validation. -/
theorem C5_witness : parseCreateCollection [] = .error ("field required: " ++ "name") :=
  C5_name_required.1 [] rfl

/-- Claim C6, counterexample: a Get payload with limit 0 and offset -1 parses
successfully, contrary to the claim that a non-positive limit or a negative
offset fails validation. -/
theorem C6_counterexample :
    parseGetEmbedding [("limit", JsonValue.int 0), ("offset", JsonValue.int (-1))] =
      .ok ⟨none, none, none, none, some 0, some (-1),
           [.metadatas, .documents, .distances]⟩ := rfl

/-- Claim C6, amended: `limit` and `offset`, when supplied as integers, are
accepted with no sign or positivity constraint at this layer: every integer
value, zero and negative values included, passes validation. -/
theorem C6_limit_offset_unconstrained (l o : Int) :
    parseGetEmbedding [("limit", JsonValue.int l), ("offset", JsonValue.int o)] =
      .ok ⟨none, none, none, none, some l, some o,
           [.metadatas, .documents, .distances]⟩ := by
  simp [parseGetEmbedding, lookupField, parseOptField, parseDefField, parseInt,
    Bind.bind, Except.bind, Except.map]
  rfl

/-- Claim C7: an embedding vector whose elements are each either an integer
or a floating-point value is accepted by both Add and Query, and parsing
returns the vector verbatim, preserving the original numeric representation
of every element. -/
theorem C7_numeric_representation_preserved (vec : List JsonValue)
    (hvec : ∀ v ∈ vec, (∃ n, v = JsonValue.int n) ∨ (∃ q, v = JsonValue.float q)) :
    parseAddEmbedding [("embeddings", JsonValue.arr [JsonValue.arr vec]),
                       ("ids", JsonValue.arr [JsonValue.str "a"])] =
      .ok ⟨some [JsonValue.arr vec], none, none, some ["a"]⟩ ∧
    parseQueryEmbedding [("query_embeddings", JsonValue.arr [JsonValue.arr vec])] =
      .ok ⟨none, none, [JsonValue.arr vec], 10,
           [.metadatas, .documents, .distances]⟩ := by
  constructor
  · simp [parseAddEmbedding, lookupField, parseOptField, parseListWith,
      parseElems, parseAny, parseStr, Bind.bind, Except.bind, Except.map]
    rfl
  · simp [parseQueryEmbedding, lookupField, parseOptField, parseReqField,
      parseDefField, parseListWith, parseElems, parseAny,
      Bind.bind, Except.bind, Except.map]
    rfl

/-- Claim C7, witness: a vector mixing an integer element and a
floating-point element is accepted and preserved by both Add and Query. -/
theorem C7_witness :
    (∀ v ∈ [JsonValue.int 1, JsonValue.float (1/2)],
      (∃ n, v = JsonValue.int n) ∨ (∃ q, v = JsonValue.float q)) ∧
    (parseAddEmbedding [("embeddings",
        JsonValue.arr [JsonValue.arr [JsonValue.int 1, JsonValue.float (1/2)]]),
        ("ids", JsonValue.arr [JsonValue.str "a"])] =
      .ok ⟨some [JsonValue.arr [JsonValue.int 1, JsonValue.float (1/2)]],
           none, none, some ["a"]⟩ ∧
     parseQueryEmbedding [("query_embeddings",
        JsonValue.arr [JsonValue.arr [JsonValue.int 1, JsonValue.float (1/2)]])] =
      .ok ⟨none, none, [JsonValue.arr [JsonValue.int 1, JsonValue.float (1/2)]], 10,
           [.metadatas, .documents, .distances]⟩) := by
  have hv : ∀ v ∈ [JsonValue.int 1, JsonValue.float (1/2)],
      (∃ n, v = JsonValue.int n) ∨ (∃ q, v = JsonValue.float q) := by
    intro v hmem
    simp only [List.mem_cons, List.not_mem_nil, or_false] at hmem
    rcases hmem with rfl | rfl
    · exact Or.inl ⟨1, rfl⟩
    · exact Or.inr ⟨1/2, rfl⟩
  exact ⟨hv, C7_numeric_representation_preserved [JsonValue.int 1, JsonValue.float (1/2)] hv⟩

/-- Claim C8: parsing is deterministic and stateless: every parse function of
this layer is a pure function of the payload alone, so two runs on equal
payloads return equal results, for every request type. -/
theorem C8_parsing_deterministic (p q : List (String × JsonValue)) (h : p = q) :
    parseAddEmbedding p = parseAddEmbedding q ∧
    parseUpdateEmbedding p = parseUpdateEmbedding q ∧
    parseQueryEmbedding p = parseQueryEmbedding q ∧
    parseGetEmbedding p = parseGetEmbedding q ∧
    parseDeleteEmbedding p = parseDeleteEmbedding q ∧
    parseCreateCollection p = parseCreateCollection q ∧
    parseUpdateCollection p = parseUpdateCollection q := by
  subst h
  exact ⟨rfl, rfl, rfl, rfl, rfl, rfl, rfl⟩

/-- Claim C8, witness: the two runs agree on the concrete empty payload. -/
theorem C8_witness :
    ([] : List (String × JsonValue)) = [] ∧
    (parseAddEmbedding [] = parseAddEmbedding [] ∧
     parseUpdateEmbedding [] = parseUpdateEmbedding [] ∧
     parseQueryEmbedding [] = parseQueryEmbedding [] ∧
     parseGetEmbedding [] = parseGetEmbedding [] ∧
     parseDeleteEmbedding [] = parseDeleteEmbedding [] ∧
     parseCreateCollection [] = parseCreateCollection [] ∧
     parseUpdateCollection [] = parseUpdateCollection []) :=
  ⟨rfl, C8_parsing_deterministic [] [] rfl⟩

/-- Claim C9: the entirely empty Delete payload parses successfully to a
request with ids, where and where_document all absent; the empty delete is
not rejected at this layer. -/
theorem C9_empty_delete_accepted :
    parseDeleteEmbedding [] = .ok ⟨none, none, none⟩ := rfl

/-- Claim C10: embedding elements are not type-checked: every list of JSON
values, whatever the shape of its elements, is accepted verbatim as
`embeddings` by Add and as `query_embeddings` by Query, so validation never
fails on the element type of an embedding vector. -/
theorem C10_embedding_elements_unchecked (elems : List JsonValue) :
    parseAddEmbedding [("embeddings", JsonValue.arr elems),
                       ("ids", JsonValue.arr [JsonValue.str "a"])] =
      .ok ⟨some elems, none, none, some ["a"]⟩ ∧
    parseQueryEmbedding [("query_embeddings", JsonValue.arr elems)] =
      .ok ⟨none, none, elems, 10, [.metadatas, .documents, .distances]⟩ := by
  constructor
  · simp [parseAddEmbedding, lookupField, parseOptField, parseListWith,
      parseElems_parseAny, parseElems, parseStr, Bind.bind, Except.bind, Except.map]
    rfl
  · simp [parseQueryEmbedding, lookupField, parseOptField, parseReqField,
      parseDefField, parseListWith, parseElems_parseAny,
      Bind.bind, Except.bind, Except.map]
    rfl
